import Mathlib

/-!
Verification of the HayMQ framing layer.

Shallow embedding of `src/protocol.rs` and the framing loop of
`src/connection.rs`.  Bytes are modelled as `Nat` (values below 256 on real
wire data); Rust `Result<T, &'static str>` becomes `Except String T` carrying
the exact error strings of the source; an operation that could panic in Rust
(slice indexing, `split_at` past the end) is modelled in `Option`, with `none`
standing for a panic.
-/

/-- Mirrors `struct AmqpFrame` of src/protocol.rs. -/
structure AmqpFrame where
  frame_type : Nat
  channel : Nat
  payload : List Nat
deriving Repr, DecidableEq

/-- The 8-byte literal `b"AMQP\x00\x00\x09\x01"` from `parse_amqp_header`. -/
def amqpHeaderLiteral : List Nat := [0x41, 0x4D, 0x51, 0x50, 0x00, 0x00, 0x09, 0x01]

/-- Rust `input.starts_with(pat)` on byte slices. -/
def starts_with (input pat : List Nat) : Bool :=
  decide (input.take pat.length = pat)

/-- Mirrors `parse_amqp_header` of src/protocol.rs, error strings verbatim. -/
def parse_amqp_header (input : List Nat) : Except String Unit :=
  if input.length < amqpHeaderLiteral.length then
    .error "AMQP header too short"
  else if starts_with input amqpHeaderLiteral then
    .ok ()
  else
    .error "Invalid AMQP header"

/-- nom `number::complete::be_u8`: one byte, or failure on empty input. -/
def be_u8 : List Nat → Option (Nat × List Nat)
  | [] => none
  | b :: rest => some (b, rest)

/-- nom `number::complete::be_u16`: two bytes big-endian. -/
def be_u16 : List Nat → Option (Nat × List Nat)
  | b1 :: b2 :: rest => some (b1 * 256 + b2, rest)
  | _ => none

/-- nom `number::complete::be_u32`: four bytes big-endian. -/
def be_u32 : List Nat → Option (Nat × List Nat)
  | b1 :: b2 :: b3 :: b4 :: rest =>
      some (((b1 * 256 + b2) * 256 + b3) * 256 + b4, rest)
  | _ => none

/-- Rust `slice::split_at(mid)`: panics (`none`) when `mid` exceeds the length. -/
def split_at (l : List Nat) (mid : Nat) : Option (List Nat × List Nat) :=
  if mid ≤ l.length then some (l.take mid, l.drop mid) else none

/-- Mirrors `parse_amqp_frame` of src/protocol.rs.  `none` models a panic;
`some (.error s)` the `Err(s)` branches with the source's exact strings;
`some (.ok f)` a decoded frame. -/
def parse_amqp_frame (input : List Nat) : Option (Except String AmqpFrame) :=
  if input.length < 8 then
    some (.error "Input too short for a valid frame")
  else
    match be_u8 input with
    | none => some (.error "Failed to parse frame header")
    | some (frame_type, r1) =>
      match be_u16 r1 with
      | none => some (.error "Failed to parse frame header")
      | some (channel, r2) =>
        match be_u32 r2 with
        | none => some (.error "Failed to parse frame header")
        | some (payload_len, remainder) =>
          if remainder.length < payload_len + 1 then
            some (.error "Not enough bytes for payload + frame-end")
          else
            match split_at remainder payload_len with
            | none => none
            | some (payload, last_byte) =>
              match last_byte.get? 0 with
              | none => none
              | some frame_end =>
                if frame_end ≠ 0xCE then
                  some (.error "Invalid frame-end marker, expected 0xCE")
                else
                  some (.ok ⟨frame_type, channel, payload⟩)

/-- What the framing loop of `handle_connection` (src/connection.rs) does with
one socket read: parse exactly the read's bytes and answer per the match arms. -/
inductive SessionResponse where
  | frameReceived (f : AmqpFrame)
  | invalidFrame (e : String)
  | panicked
deriving Repr, DecidableEq

/-- One iteration of the `loop` in `handle_connection`: `incoming = &buf[..n]`
is handed to `parse_amqp_frame`; `Ok` writes "Frame received", `Err` writes
"Invalid frame" and the loop continues either way. -/
def read_step (incoming : List Nat) : SessionResponse :=
  match parse_amqp_frame incoming with
  | some (.ok f) => .frameReceived f
  | some (.error e) => .invalidFrame e
  | none => .panicked

/-- The framing loop of `handle_connection` over a whole connection: each
socket read is processed independently; no bytes are carried between reads and
no error stops the loop (the session only ends at EOF). -/
def framing_loop (reads : List (List Nat)) : List SessionResponse :=
  reads.map read_step

/-- The frames the session emits across a sequence of socket reads. -/
def decoded_frames (reads : List (List Nat)) : List AmqpFrame :=
  (framing_loop reads).filterMap fun r =>
    match r with
    | .frameReceived f => some f
    | _ => none

/-- Big-endian 2-byte encoding of a channel number (Rust `u16::to_be_bytes`). -/
def to_be_bytes16 (n : Nat) : List Nat := [n / 256 % 256, n % 256]

/-- Big-endian 4-byte encoding of a payload length (Rust `u32::to_be_bytes`). -/
def to_be_bytes32 (n : Nat) : List Nat :=
  [n / 16777216 % 256, n / 65536 % 256, n / 256 % 256, n % 256]

/-- Wire encoding of a frame with an arbitrary terminator byte `t`:
`[frame_type][channel BE16][payload length BE32][payload][t]`. -/
def encode_with_term (ft ch : Nat) (payload : List Nat) (t : Nat) : List Nat :=
  ft :: (to_be_bytes16 ch ++ to_be_bytes32 payload.length ++ payload ++ [t])

/-- Well-formed wire encoding of a frame (terminator `0xCE`). -/
def encode_frame (ft ch : Nat) (payload : List Nat) : List Nat :=
  encode_with_term ft ch payload 0xCE

deriving instance DecidableEq for Except

/-! ## Helper lemmas about the big-endian readers -/

theorem be_u16_be_bytes (n : Nat) (rest : List Nat) (h : n < 65536) :
    be_u16 (to_be_bytes16 n ++ rest) = some (n, rest) := by
  have hn : n / 256 % 256 * 256 + n % 256 = n := by omega
  simp only [to_be_bytes16, List.cons_append, List.nil_append, be_u16, hn]

theorem be_u32_be_bytes (n : Nat) (rest : List Nat) (h : n < 4294967296) :
    be_u32 (to_be_bytes32 n ++ rest) = some (n, rest) := by
  have hn : ((n / 16777216 % 256 * 256 + n / 65536 % 256) * 256 + n / 256 % 256) * 256
      + n % 256 = n := by omega
  simp only [to_be_bytes32, List.cons_append, List.nil_append, be_u32, hn]

theorem parse_encode_with_term (ft ch : Nat) (payload : List Nat) (t : Nat)
    (hch : ch < 65536) (hlen : payload.length < 4294967296) :
    parse_amqp_frame (encode_with_term ft ch payload t)
      = if t = 0xCE then some (.ok ⟨ft, ch, payload⟩)
        else some (.error "Invalid frame-end marker, expected 0xCE") := by
  have hch1 : ch / 256 % 256 * 256 + ch % 256 = ch := by omega
  have hpl : ((payload.length / 16777216 % 256 * 256 + payload.length / 65536 % 256) * 256
      + payload.length / 256 % 256) * 256 + payload.length % 256 = payload.length := by omega
  have e : encode_with_term ft ch payload t =
      ft :: (ch / 256 % 256) :: (ch % 256) ::
      (payload.length / 16777216 % 256) :: (payload.length / 65536 % 256) ::
      (payload.length / 256 % 256) :: (payload.length % 256) :: (payload ++ [t]) := by
    simp [encode_with_term, to_be_bytes16, to_be_bytes32]
  rw [e]
  unfold parse_amqp_frame
  rw [if_neg (by simp)]
  simp only [be_u8, be_u16, be_u32, hch1, hpl]
  rw [if_neg (by simp)]
  unfold split_at
  rw [if_pos (by simp)]
  rw [show (payload ++ [t]).take payload.length = payload from List.take_left payload [t]]
  rw [show (payload ++ [t]).drop payload.length = [t] from List.drop_left payload [t]]
  by_cases ht : t = 0xCE
  · simp [ht, List.get?]
  · simp [ht, List.get?]

/-! ## Claim theorems -/

/-- C6: for every frame_type, every channel below 2^16 and every payload whose
length fits the 4-byte length field, decoding the complete encoded frame
(7-byte header with the payload's length, the payload bytes, then 0xCE)
succeeds and returns a frame whose payload equals the original bytes exactly
and whose frame_type and channel equal the header fields. -/
theorem parse_amqp_frame_roundtrip (ft ch : Nat) (payload : List Nat)
    (hch : ch < 65536) (hlen : payload.length < 4294967296) :
    parse_amqp_frame (encode_frame ft ch payload) = some (.ok ⟨ft, ch, payload⟩) := by
  rw [encode_frame, parse_encode_with_term ft ch payload 0xCE hch hlen, if_pos rfl]

/-- C6 witness: the spec's concrete scenario 2 frame bytes decode to
`Frame{frame_type 1, channel 1, payload [0x0A, 0x0B, 0x0C]}`. -/
theorem parse_amqp_frame_roundtrip_witness :
    parse_amqp_frame [0x01, 0x00, 0x01, 0x00, 0x00, 0x00, 0x03, 0x0A, 0x0B, 0x0C, 0xCE]
      = some (.ok ⟨1, 1, [0x0A, 0x0B, 0x0C]⟩) := by
  have h := parse_amqp_frame_roundtrip 1 1 [0x0A, 0x0B, 0x0C] (by decide) (by decide)
  have he : encode_frame 1 1 [0x0A, 0x0B, 0x0C]
      = [0x01, 0x00, 0x01, 0x00, 0x00, 0x00, 0x03, 0x0A, 0x0B, 0x0C, 0xCE] := by decide
  rw [he] at h
  exact h

/-- C4: for every well-formed 7-byte header with the payload's length in the
length field, followed by the payload bytes and a terminator byte other than
0xCE, decoding fails with the bad-terminator error and no frame is emitted. -/
theorem parse_amqp_frame_bad_terminator (ft ch : Nat) (payload : List Nat) (t : Nat)
    (hch : ch < 65536) (hlen : payload.length < 4294967296) (ht : t ≠ 0xCE) :
    parse_amqp_frame (encode_with_term ft ch payload t)
      = some (.error "Invalid frame-end marker, expected 0xCE") := by
  rw [parse_encode_with_term ft ch payload t hch hlen, if_neg ht]

/-- C4 witness: the scenario-3 bytes (scenario 2 with final byte 0xAB) fail
with the bad-terminator error. -/
theorem parse_amqp_frame_bad_terminator_witness :
    parse_amqp_frame [0x01, 0x00, 0x01, 0x00, 0x00, 0x00, 0x03, 0x0A, 0x0B, 0x0C, 0xAB]
      = some (.error "Invalid frame-end marker, expected 0xCE") := by
  have h := parse_amqp_frame_bad_terminator 1 1 [0x0A, 0x0B, 0x0C] 0xAB
    (by decide) (by decide) (by decide)
  have he : encode_with_term 1 1 [0x0A, 0x0B, 0x0C] 0xAB
      = [0x01, 0x00, 0x01, 0x00, 0x00, 0x00, 0x03, 0x0A, 0x0B, 0x0C, 0xAB] := by decide
  rw [he] at h
  exact h

/-- C7: header validation on an exactly-8-byte input succeeds iff the bytes
equal the literal "AMQP" 0x00 0x00 0x09 0x01; fewer than 8 bytes fail with the
too-short error; 8 bytes differing from the literal fail with the mismatch
error. -/
theorem parse_amqp_header_spec (input : List Nat) :
    (input.length = 8 → (parse_amqp_header input = .ok () ↔ input = amqpHeaderLiteral))
    ∧ (input.length < 8 → parse_amqp_header input = .error "AMQP header too short")
    ∧ (input.length = 8 → input ≠ amqpHeaderLiteral →
        parse_amqp_header input = .error "Invalid AMQP header") := by
  have hlit : amqpHeaderLiteral.length = 8 := rfl
  refine ⟨fun h8 => ?_, fun hshort => ?_, fun h8 hne => ?_⟩
  · have htake : input.take amqpHeaderLiteral.length = input := by
      rw [hlit, ← h8]
      exact List.take_length input
    unfold parse_amqp_header starts_with
    rw [htake, if_neg (by rw [hlit, h8]; exact lt_irrefl 8)]
    by_cases heq : input = amqpHeaderLiteral <;> simp [heq]
  · unfold parse_amqp_header
    rw [if_pos (by rw [hlit]; exact hshort)]
  · have htake : input.take amqpHeaderLiteral.length = input := by
      rw [hlit, ← h8]
      exact List.take_length input
    unfold parse_amqp_header starts_with
    rw [htake, if_neg (by rw [hlit, h8]; exact lt_irrefl 8)]
    simp [hne]

/-- C7 witness: the spec's concrete scenario 1 — the genuine header bytes
validate, and the same bytes with final byte 0x00 fail with the mismatch
error. -/
theorem parse_amqp_header_spec_witness :
    parse_amqp_header [0x41, 0x4D, 0x51, 0x50, 0x00, 0x00, 0x09, 0x01] = .ok ()
    ∧ parse_amqp_header [0x41, 0x4D, 0x51, 0x50, 0x00, 0x00, 0x09, 0x00]
      = .error "Invalid AMQP header" :=
  ⟨((parse_amqp_header_spec [0x41, 0x4D, 0x51, 0x50, 0x00, 0x00, 0x09, 0x01]).1
      (by decide)).mpr (by decide),
   (parse_amqp_header_spec [0x41, 0x4D, 0x51, 0x50, 0x00, 0x00, 0x09, 0x00]).2.2
      (by decide) (by decide)⟩

/-- C10: any input of length at least 8 whose first 8 bytes equal the literal
"AMQP" 0x00 0x00 0x09 0x01 validates successfully, regardless of trailing
bytes. -/
theorem parse_amqp_header_ignores_trailing (input : List Nat)
    (hlen : 8 ≤ input.length) (hpre : input.take 8 = amqpHeaderLiteral) :
    parse_amqp_header input = .ok () := by
  have hlit : amqpHeaderLiteral.length = 8 := rfl
  unfold parse_amqp_header starts_with
  rw [hlit, hpre, if_neg (by omega)]
  simp

/-- C10 witness: a 9-byte input starting with the 8-byte literal validates. -/
theorem parse_amqp_header_ignores_trailing_witness :
    parse_amqp_header [0x41, 0x4D, 0x51, 0x50, 0x00, 0x00, 0x09, 0x01, 0xFF] = .ok () :=
  parse_amqp_header_ignores_trailing [0x41, 0x4D, 0x51, 0x50, 0x00, 0x00, 0x09, 0x01, 0xFF]
    (by decide) (by decide)

/-- C9: parse_amqp_frame is total on every byte slice — it always returns a
frame or an error; the operations that could panic in the source (the slice
split and the terminator index, modelled as the `none` cases) are unreachable
because each is guarded by a preceding length check. -/
theorem parse_amqp_frame_total (input : List Nat) :
    (parse_amqp_frame input).isSome = true := by
  unfold parse_amqp_frame
  by_cases h8 : input.length < 8
  · rw [if_pos h8]
    rfl
  · rw [if_neg h8]
    rcases input with _ | ⟨b0, input⟩
    · simp at h8
    rcases input with _ | ⟨b1, input⟩
    · simp at h8
    rcases input with _ | ⟨b2, input⟩
    · simp at h8
    rcases input with _ | ⟨b3, input⟩
    · simp at h8
    rcases input with _ | ⟨b4, input⟩
    · simp at h8
    rcases input with _ | ⟨b5, input⟩
    · simp at h8
    rcases input with _ | ⟨b6, rest⟩
    · simp at h8
    simp only [be_u8, be_u16, be_u32]
    by_cases hrem : rest.length < ((b3 * 256 + b4) * 256 + b5) * 256 + b6 + 1
    · rw [if_pos hrem]
      rfl
    · rw [if_neg hrem]
      unfold split_at
      rw [if_pos (by omega)]
      rcases hd : rest.drop (((b3 * 256 + b4) * 256 + b5) * 256 + b6) with _ | ⟨x, xs⟩
      · have := congrArg List.length hd
        simp [List.length_drop] at this
        omega
      · by_cases hx : x = 0xCE <;> simp [List.get?, hx]

/-- C1: chunk-boundary independence fails in the code.  The scenario-2 frame
decodes when it arrives in a single read, but the same bytes split as
`01 00` then `01 00 00 00 03 0A 0B 0C CE` (the spec's scenario 4), or fed one
byte at a time, yield no frame at all: `handle_connection` hands each read's
bytes to `parse_amqp_frame` independently and carries nothing between reads. -/
theorem framing_chunk_boundary_dependent :
    decoded_frames [[0x01, 0x00, 0x01, 0x00, 0x00, 0x00, 0x03, 0x0A, 0x0B, 0x0C, 0xCE]]
      = [⟨1, 1, [0x0A, 0x0B, 0x0C]⟩]
    ∧ decoded_frames [[0x01, 0x00], [0x01, 0x00, 0x00, 0x00, 0x03, 0x0A, 0x0B, 0x0C, 0xCE]]
      = []
    ∧ decoded_frames [[0x01], [0x00], [0x01], [0x00], [0x00], [0x00], [0x03],
                      [0x0A], [0x0B], [0x0C], [0xCE]]
      = [] := by decide

/-- C2: an incomplete feed emits no frame (the error branch), but the buffered
bytes are NOT retained for the next decode attempt: after the two-byte read
`01 00`, the follow-up read holding the remaining nine bytes of a valid frame
still decodes nothing, although the concatenation of the two reads is exactly
the scenario-2 frame. -/
theorem incomplete_read_not_retained :
    read_step [0x01, 0x00] = .invalidFrame "Input too short for a valid frame"
    ∧ decoded_frames [[0x01, 0x00], [0x01, 0x00, 0x00, 0x00, 0x03, 0x0A, 0x0B, 0x0C, 0xCE]]
      = []
    ∧ parse_amqp_frame ([0x01, 0x00] ++ [0x01, 0x00, 0x00, 0x00, 0x03, 0x0A, 0x0B, 0x0C, 0xCE])
      = some (.ok ⟨1, 1, [0x0A, 0x0B, 0x0C]⟩) := by decide

/-- C3: a single read holding two back-to-back well-formed frames (each decodes
on its own) emits only the first frame; `parse_amqp_frame` ignores every byte
after the first terminator and the framing loop never revisits them. -/
theorem two_frames_single_read_emits_first_only :
    parse_amqp_frame [0x01, 0x00, 0x01, 0x00, 0x00, 0x00, 0x01, 0xAA, 0xCE]
      = some (.ok ⟨1, 1, [0xAA]⟩)
    ∧ parse_amqp_frame [0x02, 0x00, 0x02, 0x00, 0x00, 0x00, 0x01, 0xBB, 0xCE]
      = some (.ok ⟨2, 2, [0xBB]⟩)
    ∧ decoded_frames [[0x01, 0x00, 0x01, 0x00, 0x00, 0x00, 0x01, 0xAA, 0xCE,
                       0x02, 0x00, 0x02, 0x00, 0x00, 0x00, 0x01, 0xBB, 0xCE]]
      = [⟨1, 1, [0xAA]⟩] := by decide

/-- C5: after a bad-terminator decode error the framing loop does NOT stop: it
writes the invalid-frame response and keeps parsing later reads, here emitting
a frame from the read that follows the corrupted one. -/
theorem session_parses_after_bad_terminator :
    framing_loop [[0x01, 0x00, 0x01, 0x00, 0x00, 0x00, 0x03, 0x0A, 0x0B, 0x0C, 0xAB],
                  [0x01, 0x00, 0x01, 0x00, 0x00, 0x00, 0x03, 0x0A, 0x0B, 0x0C, 0xCE]]
      = [.invalidFrame "Invalid frame-end marker, expected 0xCE",
         .frameReceived ⟨1, 1, [0x0A, 0x0B, 0x0C]⟩] := by decide

/-- C8: no maximum payload length is enforced.  A header whose length field is
2^32 - 1 is answered with the not-enough-bytes error (never a payload-too-large
rejection, which does not exist among the code's errors), and a frame with a
5000-byte payload — larger than the 4096-byte read buffer — is decoded and
accepted whenever its bytes are present. -/
theorem no_payload_length_cap :
    parse_amqp_frame [0x01, 0x00, 0x01, 0xFF, 0xFF, 0xFF, 0xFF, 0x00]
      = some (.error "Not enough bytes for payload + frame-end")
    ∧ parse_amqp_frame (encode_frame 1 1 (List.replicate 5000 0))
      = some (.ok ⟨1, 1, List.replicate 5000 0⟩) := by
  refine ⟨by decide, ?_⟩
  rw [encode_frame, parse_encode_with_term 1 1 (List.replicate 5000 0) 0xCE (by decide)
    (by rw [List.length_replicate]; norm_num), if_pos rfl]
